import Mathlib

/-!
# Shallow embedding of the `autoplanting` device client

This development embeds the control logic of the repository's Python
sources (`autoplant.py`, `schedule.py`, `mqtt.py`) as executable Lean
definitions and proves/refutes the specification's claims about them.

Conventions used throughout:
* wall-clock instants and durations are natural numbers of seconds;
* Python exceptions are modelled with `Except String`, the string naming
  the Python exception that would be raised;
* external collaborators (the `croniter` validity check, the DHT sensor,
  the level sensor GPIO) are parameters of the embedded functions;
* relay outputs are active-low: writing `true` to the pin switches the
  physical device *off* (the safe state), `false` switches it on.
-/

namespace Autoplant

/-! ## Data model: schedule entries (`schedule.py`) -/

/-- One parsed schedule entry: the tuple `(next, cmd[0], cmd[1:])` that
`readCron` appends (`schedule.py` line 40). -/
structure JobEntry where
  fireTime : Nat
  cmd : String
  args : List String
  deriving DecidableEq, Repr

/-- Python's tuple sort in `getNextJobs` orders the entries by their first
component first; the scheduler only ever inspects the `fireTime`
component, so the embedding sorts by that key. -/
def fireLE (a b : JobEntry) : Prop := a.fireTime ≤ b.fireTime

instance : DecidableRel fireLE := fun a b => Nat.decLe a.fireTime b.fireTime

instance : IsTotal JobEntry fireLE := ⟨fun a b => Nat.le_total a.fireTime b.fireTime⟩

instance : IsTrans JobEntry fireLE := ⟨fun _ _ _ h h' => Nat.le_trans h h'⟩

/-! ## `schedule.readCron`

`readCron` iterates the file's lines; comment lines are skipped, a line
with fewer than 6 space-separated fields raises (and catches) an
exception and prints an `invalid entry` report, and a line whose first
five fields do not satisfy `croniter.is_valid` is skipped without any
report.  The croniter collaborator is abstracted by the parameters
`isValid` (syntax check) and `nextFire` (next occurrence after the
reference instant). -/

/-- Python `str.rstrip()`: drop trailing whitespace.  Lines are
embedded as their character lists so that all string processing is
structurally recursive. -/
def pyRstrip (l : List Char) : List Char :=
  (l.reverse.dropWhile Char.isWhitespace).reverse

/-- Python `str.split(sep)` for a one-character separator: split at
every occurrence, keeping empty fields (`''.split(' ') == ['']`,
`'a  b'.split(' ') == ['a', '', 'b']`). -/
def pySplit (sep : Char) : List Char → List (List Char)
  | [] => [[]]
  | c :: cs =>
    let r := pySplit sep cs
    if c = sep then [] :: r
    else
      match r with
      | [] => [[c]]
      | t :: ts => (c :: t) :: ts

/-- Python `line.startswith('#')`. -/
def startsWithHash : List Char → Bool
  | '#' :: _ => true
  | _ => false

/-- Result of parsing one line: the entries it contributes and the
`invalid entry` reports it prints. -/
def processLine (isValid : String → Bool) (nextFire : String → Nat)
    (line : List Char) : List JobEntry × List String :=
  if startsWithHash line then ([], [])
  else
    let data := pySplit ' ' (pyRstrip line)
    if data.length < 6 then
      -- `raise Exception('invalid lenght of cron entry')`, caught and reported
      ([], [String.mk ('[' :: (pyRstrip line ++ "]: invalid entry".data))])
    else
      let sched := String.mk (List.intercalate [' '] (data.take 5))
      let cmd := data.drop 5
      if isValid sched then
        -- `cmd` is nonempty because `data.length ≥ 6`; `headD`/`tail`
        -- stand for Python's `cmd[0]`/`cmd[1:]`.
        ([⟨nextFire sched, String.mk (cmd.headD []), cmd.tail.map String.mk⟩], [])
      else
        ([], [])

/-- `readCron` over the file's (newline-stripped) lines: accumulated
entries and accumulated malformed-entry reports. -/
def readCron (isValid : String → Bool) (nextFire : String → Nat) :
    List (List Char) → List JobEntry × List String
  | [] => ([], [])
  | l :: ls =>
    let r := processLine isValid nextFire l
    let rest := readCron isValid nextFire ls
    (r.1 ++ rest.1, r.2 ++ rest.2)

/-! ## `schedule.getNextJobs` -/

/-- `getNextJobs`: sorts the table, starts from `data[0]` (an
`IndexError` on an empty table) and extends with the following entries
while their fire time equals the first one's. -/
def getNextJobs (table : List JobEntry) : Except String (List JobEntry) :=
  match List.insertionSort fireLE table with
  | [] => .error "IndexError: list index out of range"
  | x :: xs => .ok (x :: xs.takeWhile (fun j => j.fireTime == x.fireTime))

/-! ## `autoplant.getLevel`

`getLevel` appends `level.value` five times (one sample per second) and
returns `sum(data)/3.0 >= 1`.  The sensor is a function from the sample
index to the boolean it reads. -/

/-- The five samples `data` collected by `getLevel`. -/
def levelSamples (level : Nat → Bool) : List Bool := (List.range 5).map level

/-- Python `sum` over a list of booleans (`True` counts as 1). -/
def pySumBool (l : List Bool) : Nat := (l.map (fun b => if b then 1 else 0)).sum

/-- `getLevel`: `sum(data)/3.0 >= 1`, evaluated in exact (rational)
arithmetic. -/
def getLevel (level : Nat → Bool) : Bool :=
  decide ((1 : ℚ) ≤ (pySumBool (levelSamples level) : ℚ) / 3)

/-! ## `autoplant.startPump` and `autoplant.startLamp`

Time advances one second per loop iteration (each iteration awaits
`asyncio.sleep(1)`), so the `while datetime.now() < endTime` guard is a
countdown from `period`.  `level t` is the level sensor's reading at
iteration `t`; `err t` signals an exception raised inside iteration `t`
(caught by the `except` clause).  The embedding records every write made
to the actuator pin, in program order; `true` is the safe (off) state of
the active-low relay. -/

/-- The exit path a `startPump` run takes. -/
inductive PumpExit
  | deadline
  | lowWater
  | error
  deriving DecidableEq, Repr

/-- The `try`/`except` part of `startPump`: the writes to `pump.value`
it makes and the exit path taken. -/
def startPumpTry (level err : Nat → Bool) : Nat → Nat → List Bool × PumpExit
  | 0, _ => ([], .deadline)
  | remaining + 1, t =>
    if level t then
      -- `pump.value = True` and early `return`
      ([true], .lowWater)
    else if err t then
      -- exception after `pump.value = False`, caught by `except`
      ([false], .error)
    else
      let rest := startPumpTry level err remaining (t + 1)
      (false :: rest.1, rest.2)

/-- `startPump`: the `try` body followed by the unconditional `finally`
(`pump.value = True`). -/
def startPump (level err : Nat → Bool) (period : Nat) : List Bool × PumpExit :=
  let r := startPumpTry level err period 0
  (r.1 ++ [true], r.2)

/-- `startLamp`: `lamp.value = False`, the awaited sleep (`err` signals
an exception during it, caught by `except`), then the `finally` writes
`lamp.value = True`.  Second component: whether the error path ran. -/
def startLamp (err : Bool) (_period : Nat) : List Bool × Bool :=
  ([false] ++ [true], err)

/-- The actuator pin after a task ends: the last write made to it (the
pin was initialised to `true`, the off state, in `initDevices`). -/
def finalPinValue (writes : List Bool) : Bool := writes.getLastD true

/-! ## `autoplant.updateSchedule` -/

/-- `autoplant.getAction`: the `{"lamp": doLight, "pump": doWatering}`
dictionary lookup; `none` for an unknown command word. -/
def getAction (entry : String) : Option String :=
  if entry = "lamp" then some "doLight"
  else if entry = "pump" then some "doWatering"
  else none

/-- One iteration of `updateSchedule`'s `while True` body: it calls
`schedule.getNextJobs` with *no* exception handler (a failure propagates
out of the coroutine and terminates the schedule-evaluation task), reads
`jobs[0][0]`, and when the batch is due within 60 seconds spawns one
task per job with a recognised command.  The result is the list of
spawned actions (coroutine name and arguments). -/
def updateScheduleTick (table : List JobEntry) (now : Int) :
    Except String (List (String × List String)) :=
  match getNextJobs table with
  | .error e => .error e
  | .ok jobs =>
    match jobs with
    | [] => .error "IndexError: list index out of range"
    | j :: rest =>
      if ((j.fireTime : Int) - now) < 60 then
        .ok ((j :: rest).filterMap
          (fun job => (getAction job.cmd).map (fun a => (a, job.args))))
      else
        .ok []

/-! ## `autoplant.handleMqtt` -/

/-- A JSON scalar as it appears in command payloads. -/
inductive JVal
  | str (s : String)
  | int (n : Int)
  deriving DecidableEq, Repr

/-- An inbound payload after `json.loads`: either undecodable (or not a
JSON object — any subscript access raises, and the handler's `except`
catches it), or an object given by its fields. -/
inductive InboundPayload
  | undecodable
  | obj (fields : List (String × JVal))

/-- Python `int()` as `doWatering`/`doLight` apply it to `attr[0]`:
identity on integers, string parsing on strings (`none` = `ValueError`
inside the spawned task). -/
def pyInt : JVal → Option Int
  | .int n => some n
  | .str s => s.toInt?

/-- The two actuators a command can target. -/
inductive ActuatorKind
  | pump
  | lamp
  deriving DecidableEq, Repr

/-- Observable outcome of the `handler` closure built by `handleMqtt`. -/
structure HandlerResult where
  /-- tasks created, with the raw `duration` value passed as `attr[0]` -/
  spawned : List (ActuatorKind × JVal)
  /-- printed `unknown command from server` -/
  warnedUnknown : Bool
  /-- the `except` branch printed `error occured while processing server data` -/
  loggedError : Bool
  /-- an exception escaped the handler into the MQTT machinery -/
  propagatedFault : Bool
  deriving DecidableEq, Repr

/-- Python dict subscript `cmd[k]` as an association-list lookup
(`none` = `KeyError`). -/
def lookupField (fields : List (String × JVal)) (k : String) : Option JVal :=
  fields.lookup k

/-- The `handler` closure: decodes the payload, dispatches on
`cmd["command"]`, and catches every exception (`except Exception`), so
no fault ever propagates to the connection state machine. -/
def handler (p : InboundPayload) : HandlerResult :=
  match p with
  | .undecodable => ⟨[], false, true, false⟩
  | .obj fs =>
    match lookupField fs "command" with
    | none => ⟨[], false, true, false⟩
    | some v =>
      if v = .str "pump_on" then
        match lookupField fs "duration" with
        | none => ⟨[], false, true, false⟩
        | some d => ⟨[(.pump, d)], false, false, false⟩
      else if v = .str "lamp_on" then
        match lookupField fs "duration" with
        | none => ⟨[], false, true, false⟩
        | some d => ⟨[(.lamp, d)], false, false, false⟩
      else
        ⟨[], true, false, false⟩

/-! ## `mqtt.Mqtt.__check_and_refresh_jwt` and `Mqtt.publish` -/

/-- The credential validity window in minutes (`self.jwt_exp_mins = 60`;
`create_jwt` mints tokens with a 60-minute `exp`). -/
def jwt_exp_mins : Nat := 60

/-- Python `timedelta.seconds` for a non-negative span: the seconds
*component* of the normalised timedelta — total seconds modulo 86400 —
not `total_seconds()`. -/
def timedeltaSeconds (totalSeconds : Nat) : Nat := totalSeconds % 86400

/-- `__check_and_refresh_jwt`: `true` iff it mints a fresh token,
disconnects and re-runs the connect sequence
(`(utcnow() - self.jwt_iat).seconds > 60 * self.jwt_exp_mins`). -/
def checkAndRefreshJwt (elapsedSeconds : Nat) : Bool :=
  60 * jwt_exp_mins < timedeltaSeconds elapsedSeconds

/-- `publish` runs `__check_and_refresh_jwt` first and then sends
unconditionally, so the send goes out under an expired credential
exactly when the credential is older than its window yet no refresh
fired. -/
def publishUsesExpiredCredential (elapsedSeconds : Nat) : Bool :=
  (60 * jwt_exp_mins < elapsedSeconds) && !(checkAndRefreshJwt elapsedSeconds)

/-! ## `mqtt.Mqtt.__connect_with_retry` backoff -/

/-- `MAXIMUM_BACKOFF_TIME = 128` seconds. -/
def MAXIMUM_BACKOFF_TIME : Nat := 128

/-- The jitter added to one backoff delay:
`random.randint(0, 1000) / 1000.0`, with draw `r ∈ [0, 1000]`. -/
def jitterOf (r : Nat) : ℚ := (r : ℚ) / 1000

/-- The un-jittered delays slept by `__connect_with_retry`'s loop when
every reconnect attempt fails, starting from `minimum_backoff_time = m`:
if `m > MAXIMUM_BACKOFF_TIME` the loop gives up (returning the delays
slept so far), otherwise it sleeps `m` plus jitter, doubles `m` and
retries.  `fuel` bounds the recursion; `none` means the loop had not
given up within `fuel` iterations. -/
def backoffRun (fuel m : Nat) : Option (List Nat) :=
  match fuel with
  | 0 => none
  | fuel + 1 =>
    if MAXIMUM_BACKOFF_TIME < m then some []
    else (backoffRun fuel (2 * m)).map (fun ds => m :: ds)

/-! ## Shutdown: `autoplant.run`'s `finally` and `mqtt.Mqtt.deinit` -/

/-- The names bound at the top level of the `mqtt` module: the constant,
the two functions and the `Mqtt` class.  `deinit` is a *method* of
`Mqtt`, not a module attribute. -/
def mqttModuleAttrs : List String :=
  ["MAXIMUM_BACKOFF_TIME", "create_jwt", "error_str", "Mqtt"]

/-- The telemetry link's transport state. -/
structure LinkState where
  connected : Bool
  loopRunning : Bool
  deriving DecidableEq, Repr

/-- `Mqtt.deinit`: `self.client.disconnect()` then
`self.client.loop_stop()`. -/
def deinit (_s : LinkState) : LinkState := ⟨false, false⟩

/-- The `finally` block of `run`: `loop.close()` then `mqtt.deinit()` —
an attribute lookup of `deinit` on the `mqtt` *module* object.  If the
module has no such attribute, an `AttributeError` is raised and the
link's shutdown sequence never runs. -/
def runShutdown (s : LinkState) : Except String LinkState :=
  if mqttModuleAttrs.contains "deinit" then .ok (deinit s)
  else .error "AttributeError: module mqtt has no attribute deinit"

/-! ## `autoplant.getTempAndHumid` and the measurement loop -/

/-- One DHT read attempt: both properties read successfully, the
temperature read raising `RuntimeError` (nothing appended), or the
humidity read raising after the temperature was already appended. -/
inductive DhtRead
  | ok (t h : Int)
  | failTemp
  | failHumid (t : Int)

/-- The `temperature` and `humidity` lists after the 5-attempt sampling
loop (a failed read is caught, logged and skipped). -/
def collectSamples (reads : List DhtRead) : List Int × List Int :=
  reads.foldl
    (fun acc r =>
      match r with
      | .ok t h => (acc.1 ++ [t], acc.2 ++ [h])
      | .failTemp => acc
      | .failHumid t => (acc.1 ++ [t], acc.2))
    ([], [])

/-- Python `max` over a list: raises `ValueError` on an empty list. -/
def pyMax : List Int → Except String Int
  | [] => .error "ValueError: max() arg is an empty sequence"
  | x :: xs => .ok (xs.foldl max x)

/-- Python `min` over a list: raises `ValueError` on an empty list. -/
def pyMin : List Int → Except String Int
  | [] => .error "ValueError: min() arg is an empty sequence"
  | x :: xs => .ok (xs.foldl min x)

/-- `l.remove(max(l)); l.remove(min(l)); sum(l)/len(l)`: drop the first
maximal reading, then the first minimal reading of the remainder, then
average; an empty list makes `max`/`min` raise `ValueError`, an empty
remainder makes the division raise `ZeroDivisionError`. -/
def trimmedAverage (l : List Int) : Except String ℚ := do
  let mx ← pyMax l
  let l1 := l.erase mx
  let mn ← pyMin l1
  let l2 := l1.erase mn
  if l2.length = 0 then .error "ZeroDivisionError: division by zero"
  else .ok ((l2.sum : ℚ) / (l2.length : ℚ))

/-- `getTempAndHumid` over one round of 5 read attempts: read failures
are caught inside the loop, but the max/min/average post-processing runs
with *no* handler, so its exceptions escape. -/
def getTempAndHumid (reads : List DhtRead) : Except String (ℚ × ℚ) := do
  let s := collectSamples reads
  let t ← trimmedAverage s.1
  let hu ← trimmedAverage s.2
  return (t, hu)

/-- One iteration of `getAndPublishMeasurements`: it awaits
`getTempAndHumid` with no exception handler, so any error raised there
propagates and terminates the sampling-and-publish task. -/
def measurementTick (reads : List DhtRead) : Except String (ℚ × ℚ) :=
  getTempAndHumid reads

end Autoplant

namespace Autoplant

/-! # Theorems -/

/-- C1: every `startPump`/`startLamp` run — whatever the level-sensor
trace, the error trace and the period, hence on the deadline path, the
sensor-triggered early-exit path and the internal-error path alike —
leaves its actuator pin at `true`, the safe (off) state, because the
`finally` write is the last write on every exit path. -/
theorem actuator_safe_state_on_exit :
    (∀ level err period, finalPinValue (startPump level err period).1 = true) ∧
    (∀ err period, finalPinValue (startLamp err period).1 = true) := by
  constructor
  · intro level err period
    exact List.getLastD_concat true true (startPumpTry level err period 0).1
  · intro err period
    rfl

/-- C2: the staleness check in `publish` is computed from the seconds
*component* of the elapsed timedelta, which wraps every 86400 s: at 2
hours it refreshes as specified, but at one day plus 10 seconds —
elapsed time far beyond the 3600-second window — no refresh fires and
the payload goes out under the expired credential. -/
theorem jwt_refresh_check_wraps :
    checkAndRefreshJwt 7200 = true ∧
    60 * jwt_exp_mins < 86410 ∧
    checkAndRefreshJwt 86410 = false ∧
    publishUsesExpiredCredential 86410 = true := by
  decide

/-- C3: on a table with no valid entries, `getNextJobs` fails
(`IndexError` from `data[0]`), and the schedule-evaluation tick, having
no exception handler, propagates that failure — the loop's task
terminates instead of skipping the tick and continuing. -/
theorem empty_table_tick_crashes :
    getNextJobs [] = .error "IndexError: list index out of range" ∧
    updateScheduleTick [] 0 = .error "IndexError: list index out of range" :=
  ⟨rfl, rfl⟩

/-- C4 counterexample: the jitter draw `randint(0, 1000) = 1000` is
possible and yields a jitter of exactly 1 second, so the jitter does not
lie in the half-open interval `[0, 1)` claimed. -/
theorem backoff_jitter_counterexample :
    jitterOf 1000 = 1 ∧ ¬ jitterOf 1000 < 1 := by
  constructor
  · norm_num [jitterOf]
  · norm_num [jitterOf]

/-- C4 (amended): with every reconnect failing, the un-jittered backoff
delays are exactly 1, 2, 4, …, 128 — starting at the 1-second floor,
doubling on each consecutive failure (hence monotonically
non-decreasing) — and the loop gives up after those 8 doublings, once
the un-jittered delay exceeds the 128-second ceiling; every possible
jitter value lies in the *closed* interval `[0, 1]` seconds. -/
theorem backoff_doubling_gives_up :
    backoffRun 20 1 = some [1, 2, 4, 8, 16, 32, 64, 128] ∧
    (∀ r, r ≤ 1000 → 0 ≤ jitterOf r ∧ jitterOf r ≤ 1) := by
  constructor
  · rfl
  · intro r hr
    unfold jitterOf
    constructor
    · positivity
    · rw [div_le_one (by norm_num : (0:ℚ) < 1000)]
      exact_mod_cast hr

/-- C4 witness: the amended theorem at the jitter draw 500. -/
theorem backoff_doubling_gives_up_witness :
    backoffRun 20 1 = some [1, 2, 4, 8, 16, 32, 64, 128] ∧
    (0 ≤ jitterOf 500 ∧ jitterOf 500 ≤ 1) :=
  ⟨backoff_doubling_gives_up.1, backoff_doubling_gives_up.2 500 (by norm_num)⟩

/-- C6 counterexample: a non-comment line with 6 fields whose cron part
the validity checker rejects yields zero entries — but also zero
reports: the `is_valid` failure branch is silent, contradicting the
claim that such a line is reported. -/
theorem invalid_cron_line_silent :
    readCron (fun _ => false) (fun _ => 0) ["* * * * X pump".data] = ([], []) := by
  rfl

/-- C6 (amended): a non-comment line with fewer than 6 fields yields
zero entries and is reported; a line with at least 6 fields whose first
5 fields fail the cron validity check yields zero entries and is skipped
*silently*; in either case parsing continues with all subsequent
lines. -/
theorem malformed_line_skipped (isValid : String → Bool) (nextFire : String → Nat)
    (line : List Char) (ls : List (List Char))
    (hnc : startsWithHash line = false) :
    ((pySplit ' ' (pyRstrip line)).length < 6 →
      processLine isValid nextFire line =
        ([], [String.mk ('[' :: (pyRstrip line ++ "]: invalid entry".data))])) ∧
    (6 ≤ (pySplit ' ' (pyRstrip line)).length →
      isValid (String.mk
        (List.intercalate [' '] ((pySplit ' ' (pyRstrip line)).take 5))) = false →
      processLine isValid nextFire line = ([], [])) ∧
    readCron isValid nextFire (line :: ls) =
      ((processLine isValid nextFire line).1 ++ (readCron isValid nextFire ls).1,
       (processLine isValid nextFire line).2 ++ (readCron isValid nextFire ls).2) := by
  refine ⟨?_, ?_, rfl⟩
  · intro hlen
    simp [processLine, hnc, hlen]
  · intro hlen hiv
    have h6 : ¬ (pySplit ' ' (pyRstrip line)).length < 6 := by omega
    simp [processLine, hnc, h6, hiv]

/-- C6 witness: the amended theorem at the 3-field line `a b c`, parsed
ahead of a further line. -/
theorem malformed_line_skipped_witness :
    (((pySplit ' ' (pyRstrip "a b c".data)).length < 6 →
      processLine (fun _ => false) (fun _ => 0) "a b c".data =
        ([], [String.mk ('[' :: (pyRstrip "a b c".data ++ "]: invalid entry".data))])) ∧
    (6 ≤ (pySplit ' ' (pyRstrip "a b c".data)).length →
      (fun _ => false) (String.mk
        (List.intercalate [' '] ((pySplit ' ' (pyRstrip "a b c".data)).take 5))) = false →
      processLine (fun _ => false) (fun _ => 0) "a b c".data = ([], [])) ∧
    readCron (fun _ => false) (fun _ => 0) ("a b c".data :: ["* * * * * pump".data]) =
      ((processLine (fun _ => false) (fun _ => 0) "a b c".data).1 ++
        (readCron (fun _ => false) (fun _ => 0) ["* * * * * pump".data]).1,
       (processLine (fun _ => false) (fun _ => 0) "a b c".data).2 ++
        (readCron (fun _ => false) (fun _ => 0) ["* * * * * pump".data]).2)) :=
  malformed_line_skipped (fun _ => false) (fun _ => 0) "a b c".data
    ["* * * * * pump".data] rfl

/-- C7: a decoded object with `command = "pump_on"` (resp. `"lamp_on"`)
and a `duration` field spawns exactly one pump (resp. lamp) task
carrying that duration as its actuation period; any other command value
spawns nothing and logs the unknown-command warning; an undecodable
payload, a missing `command` field or a missing `duration` field spawns
nothing and is logged through the catch-all `except`; no input ever
propagates a fault out of the handler; and an integer duration `d`
yields the deadline `d` via Python `int()`. -/
theorem handler_dispatch :
    (∀ fs d, lookupField fs "command" = some (.str "pump_on") →
        lookupField fs "duration" = some d →
        handler (.obj fs) = ⟨[(.pump, d)], false, false, false⟩) ∧
    (∀ fs d, lookupField fs "command" = some (.str "lamp_on") →
        lookupField fs "duration" = some d →
        handler (.obj fs) = ⟨[(.lamp, d)], false, false, false⟩) ∧
    (∀ fs v, lookupField fs "command" = some v →
        v ≠ .str "pump_on" → v ≠ .str "lamp_on" →
        handler (.obj fs) = ⟨[], true, false, false⟩) ∧
    (handler .undecodable = ⟨[], false, true, false⟩) ∧
    (∀ fs, lookupField fs "command" = none →
        handler (.obj fs) = ⟨[], false, true, false⟩) ∧
    (∀ fs, lookupField fs "command" = some (.str "pump_on") →
        lookupField fs "duration" = none →
        handler (.obj fs) = ⟨[], false, true, false⟩) ∧
    (∀ p, (handler p).propagatedFault = false) ∧
    (∀ n : Int, pyInt (.int n) = some n) := by
  refine ⟨?_, ?_, ?_, rfl, ?_, ?_, ?_, fun n => rfl⟩
  · intro fs d hc hd
    simp [handler, hc, hd]
  · intro fs d hc hd
    simp [handler, hc, hd]
  · intro fs v hc h1 h2
    simp [handler, hc, h1, h2]
  · intro fs hc
    simp [handler, hc]
  · intro fs hc hd
    simp [handler, hc, hd]
  · intro p
    cases p with
    | undecodable => rfl
    | obj fs =>
      cases hc : lookupField fs "command" with
      | none => simp [handler, hc]
      | some v =>
        by_cases h1 : v = JVal.str "pump_on"
        · cases hd : lookupField fs "duration" <;> simp [handler, hc, h1, hd]
        · by_cases h2 : v = JVal.str "lamp_on"
          · cases hd : lookupField fs "duration" <;> simp [handler, hc, h1, h2, hd]
          · simp [handler, hc, h1, h2]

/-- C7 witness: the payload `{"command": "pump_on", "duration": 5}`
spawns exactly one pump task with deadline 5. -/
theorem handler_dispatch_witness :
    handler (.obj [("command", .str "pump_on"), ("duration", .int 5)]) =
      ⟨[(.pump, .int 5)], false, false, false⟩ ∧
    pyInt (.int 5) = some 5 :=
  ⟨handler_dispatch.1 _ _ rfl rfl, handler_dispatch.2.2.2.2.2.2.2 5⟩

/-- C8: the `finally` block of `run` looks `deinit` up on the `mqtt`
*module*, which has no such attribute, so shutdown raises
`AttributeError` and the link's disconnect/loop-stop sequence never
runs; the link's own `deinit` method (had it been called) is
idempotent. -/
theorem shutdown_attribute_error :
    runShutdown ⟨true, true⟩ =
      .error "AttributeError: module mqtt has no attribute deinit" ∧
    (∀ s, deinit (deinit s) = deinit s) := by
  exact ⟨rfl, fun s => rfl⟩

/-- C9: a sampling round whose read failures leave fewer than 3
successful readings makes the post-processing raise — `ValueError` from
`max()` on an empty list when all 5 attempts fail, `ZeroDivisionError`
when exactly 2 succeed — and the error propagates out of the
unprotected measurement tick, terminating the sampling-and-publish
loop. -/
theorem sensor_failure_round_fatal :
    measurementTick (List.replicate 5 .failTemp) =
      .error "ValueError: max() arg is an empty sequence" ∧
    measurementTick [.ok 20 30, .ok 21 31, .failTemp, .failTemp, .failTemp] =
      .error "ZeroDivisionError: division by zero" := by
  constructor <;> rfl

/-- C10: `getLevel` takes exactly 5 samples and reports "tank empty"
(returns `true`) iff at least 3 of the 5 samples read `true`; with at
most 2 `true` samples it reports the tank as not empty. -/
theorem getLevel_majority (level : Nat → Bool) :
    (levelSamples level).length = 5 ∧
    (getLevel level = true ↔ 3 ≤ pySumBool (levelSamples level)) ∧
    (pySumBool (levelSamples level) ≤ 2 → getLevel level = false) := by
  have hlen : (levelSamples level).length = 5 := by
    simp [levelSamples]
  have hiff : getLevel level = true ↔ 3 ≤ pySumBool (levelSamples level) := by
    unfold getLevel
    rw [decide_eq_true_iff]
    rw [le_div_iff₀ (by norm_num : (0:ℚ) < 3)]
    constructor
    · intro h
      exact_mod_cast h
    · intro h
      exact_mod_cast h
  refine ⟨hlen, hiff, ?_⟩
  intro hle
  cases h : getLevel level
  · rfl
  · exact absurd (hiff.mp h) (by omega)

/-- Auxiliary: on a list sorted by fire time whose members' fire times all
lie at or above `c`, taking entries while their fire time equals `c` is
the same as filtering for fire time `c` (the matching entries form a
prefix). -/
theorem takeWhile_eq_filter_of_sorted {c : Nat} :
    ∀ {l : List JobEntry}, l.Sorted fireLE → (∀ e ∈ l, c ≤ e.fireTime) →
      l.takeWhile (fun j => j.fireTime == c) = l.filter (fun j => j.fireTime == c) := by
  intro l
  induction l with
  | nil => intro _ _; rfl
  | cons y ys ih =>
    intro hs hmin
    rw [List.sorted_cons] at hs
    by_cases hy : y.fireTime = c
    · have hys_min : ∀ e ∈ ys, c ≤ e.fireTime := fun e he => hy ▸ hs.1 e he
      simp only [List.takeWhile_cons, List.filter_cons, hy, beq_self_eq_true, if_true]
      rw [ih hs.2 hys_min]
    · have hcy : c < y.fireTime :=
        lt_of_le_of_ne (hmin y (List.mem_cons_self y ys)) (fun h => hy h.symm)
      have hfil : ys.filter (fun j => j.fireTime == c) = [] := by
        rw [List.filter_eq_nil_iff]
        intro e he
        have : y.fireTime ≤ e.fireTime := hs.1 e he
        simp only [beq_iff_eq]
        omega
      simp only [List.takeWhile_cons, List.filter_cons, beq_iff_eq, hy, if_false, hfil]

/-- C5: on a non-empty table, `getNextJobs` succeeds and returns (as a
multiset) exactly the entries whose fire time equals the minimum fire
time over the table: all ties included, nothing later, everything
returned at the common minimum time. -/
theorem getNextJobs_min_batch (table : List JobEntry) (h : table ≠ []) :
    ∃ jobs, getNextJobs table = .ok jobs ∧
      jobs.Perm (table.filter
        (fun e => table.all (fun f => decide (e.fireTime ≤ f.fireTime)))) := by
  have hperm : (List.insertionSort fireLE table).Perm table :=
    List.perm_insertionSort fireLE table
  have hsort : (List.insertionSort fireLE table).Sorted fireLE :=
    List.sorted_insertionSort fireLE table
  cases heq : List.insertionSort fireLE table with
  | nil =>
    rw [heq] at hperm
    exact absurd hperm.symm.eq_nil h
  | cons x xs =>
    rw [heq] at hperm hsort
    refine ⟨x :: xs.takeWhile (fun j => j.fireTime == x.fireTime), ?_, ?_⟩
    · unfold getNextJobs
      rw [heq]
    · rw [List.sorted_cons] at hsort
      have hxmin : ∀ f ∈ table, x.fireTime ≤ f.fireTime := by
        intro f hf
        rcases List.mem_cons.mp (hperm.mem_iff.mpr hf) with rfl | hmem
        · exact le_refl _
        · exact hsort.1 f hmem
      have htf := takeWhile_eq_filter_of_sorted hsort.2 hsort.1
      have hcons : x :: xs.filter (fun j => j.fireTime == x.fireTime)
          = (x :: xs).filter (fun j => j.fireTime == x.fireTime) := by
        simp [List.filter_cons]
      rw [htf, hcons]
      have hp : ((x :: xs).filter (fun j => j.fireTime == x.fireTime)).Perm
          (table.filter (fun j => j.fireTime == x.fireTime)) := hperm.filter _
      refine hp.trans ?_
      have hcongr : table.filter (fun j => j.fireTime == x.fireTime)
          = table.filter
              (fun e => table.all (fun f => decide (e.fireTime ≤ f.fireTime))) := by
        refine List.filter_congr ?_
        intro e he
        by_cases hec : e.fireTime = x.fireTime
        · have hall : table.all (fun f => decide (e.fireTime ≤ f.fireTime)) = true := by
            rw [List.all_eq_true]
            intro f hf
            simp only [decide_eq_true_iff]
            exact hec ▸ hxmin f hf
          rw [hec] at hall
          simp only [hec, beq_self_eq_true, hall]
        · have hxe : x.fireTime ≤ e.fireTime := hxmin e he
          have hxt : x ∈ table := hperm.mem_iff.mp (List.mem_cons_self x xs)
          have hne : ¬ e.fireTime ≤ x.fireTime := fun hle =>
            hec (Nat.le_antisymm hle hxe)
          have hall : table.all (fun f => decide (e.fireTime ≤ f.fireTime)) = false := by
            rw [List.all_eq_false]
            exact ⟨x, hxt, by simpa using hne⟩
          simp [hec, hall]
      rw [hcongr]

/-- C5 witness: the theorem at the table with fire times `{10, 10, 15}`;
the batch is (a permutation of) exactly the two entries at time 10. -/
theorem getNextJobs_min_batch_witness :
    ∃ jobs,
      getNextJobs [⟨10, "pump", []⟩, ⟨10, "lamp", []⟩, ⟨15, "pump", []⟩] = .ok jobs ∧
      jobs.Perm
        (([⟨10, "pump", []⟩, ⟨10, "lamp", []⟩, ⟨15, "pump", []⟩] : List JobEntry).filter
          (fun e =>
            ([⟨10, "pump", []⟩, ⟨10, "lamp", []⟩, ⟨15, "pump", []⟩] : List JobEntry).all
              (fun f => decide (e.fireTime ≤ f.fireTime)))) :=
  getNextJobs_min_batch _ (by simp)

/-- C10 witness: the theorem instantiated at the constant-`false` sensor. -/
theorem getLevel_majority_witness :
    (levelSamples (fun _ => false)).length = 5 ∧
    (getLevel (fun _ => false) = true ↔
      3 ≤ pySumBool (levelSamples (fun _ => false))) ∧
    (pySumBool (levelSamples (fun _ => false)) ≤ 2 →
      getLevel (fun _ => false) = false) :=
  getLevel_majority (fun _ => false)

end Autoplant
